import Mathlib

/-!
Verification of `recommender/api/titles.py` (erecommender).

Shallow embedding of the endpoint handlers of the repository's single
source file.  External collaborators (boto3 downloads, the Django ORM
store, the SageMaker SDK, scikit-learn's `CountVectorizer`, text
extraction) are represented either by function parameters or by
definitions that follow their documented contracts; the control flow and
arithmetic of `titles.py` itself is translated line by line.  Python
machine integers are embedded as `Nat` (all the quantities involved are
nonnegative), and Python exceptions as `Except`/outcome sums.
-/

namespace ERecommender

/-! ## Constants (titles.py lines 44-48) -/

def VOCAB_SIZE : Nat := 2000

def SAGEMAKER_BUCKET : String := "sagemaker-erecommender"

def PREFIX : String := "recommender"

def NUM_TOPICS : Nat := 50

/-! ## DownloadTitles (titles.py lines 51-74)

`post` iterates over `list_keys`; each `service.download_file(key)` either
succeeds, raises `ValueError` (caught, the key is appended to `errors`),
or raises some other exception (uncaught, so it propagates out of the
handler and no response is produced).  The outcome of one download is a
parameter of the embedding. -/

inductive DownloadOutcome where
  | success : DownloadOutcome
  | valueError : DownloadOutcome
  | otherError (e : String) : DownloadOutcome
deriving DecidableEq, Repr

def DownloadOutcome.isOther : DownloadOutcome → Bool
  | otherError _ => true
  | _ => false

def DownloadOutcome.isValueError : DownloadOutcome → Bool
  | valueError => true
  | _ => false

/-- The response body built at titles.py lines 69-73 (the wall-clock
`duration` field is omitted: it is real time, not a function of the
request), together with the HTTP status code passed to `Response`. -/
structure DownloadTitlesResponse where
  status : String
  errors : Nat
  statusCode : Nat
deriving DecidableEq, Repr

/-- The `for key in list_keys` loop of titles.py lines 62-66: `errs`
accumulates the keys whose download raised `ValueError`; any other
exception escapes the loop (`Except.error`). -/
def downloadLoop (download : κ → DownloadOutcome) :
    List κ → List κ → Except String (List κ)
  | [], errs => .ok errs
  | k :: ks, errs =>
    match download k with
    | .success => downloadLoop download ks errs
    | .valueError => downloadLoop download ks (errs ++ [k])
    | .otherError e => .error e

/-- `DownloadTitles.post` (titles.py lines 53-74): run the download loop,
then answer HTTP 200 with status `"OK"` and the number of collected
errors.  An uncaught exception is an `Except.error`. -/
def downloadTitlesPost (list_keys : List κ) (download : κ → DownloadOutcome) :
    Except String DownloadTitlesResponse :=
  (downloadLoop download list_keys []).map
    (fun errs => { status := "OK", errors := errs.length, statusCode := 200 })

/-! ## PrepareTrainData._split_convert_upload (titles.py lines 276-296) -/

/-- Row bounds of chunk `i` in `_split_convert_upload` for an input with
`N` rows split into `n_parts` parts: `chunk_size = N // n_parts`,
`start = i*chunk_size`, `end = (i+1)*chunk_size`, except that the last
chunk ends at `N` (titles.py lines 277, 283-286). -/
def chunkBounds (N n_parts i : Nat) : Nat × Nat :=
  let chunk_size := N / n_parts
  (i * chunk_size, if i + 1 = n_parts then N else (i + 1) * chunk_size)

/-- The list of `(start, end)` bounds of the `n_parts` chunks serialized
by the `for i in range(n_parts)` loop (titles.py line 281). -/
def splitChunks (N n_parts : Nat) : List (Nat × Nat) :=
  (List.range n_parts).map (chunkBounds N n_parts)

/-- The row indices serialized in chunk `i` (the slice
`sparray[start:end]`, titles.py line 290). -/
def chunkRows (N n_parts i : Nat) : List Nat :=
  let b := chunkBounds N n_parts i
  List.range' b.1 (b.2 - b.1)

/-- All row indices serialized by `_split_convert_upload`, chunk after
chunk, in loop order. -/
def allChunkRows (N n_parts : Nat) : List Nat :=
  (List.range n_parts).flatMap (chunkRows N n_parts)

/-! ## PrepareTrainData: train/validation split (titles.py lines 186-191)

`n_train = int(0.8 * vectors.shape[0])`; over the nonnegative integer
`N = vectors.shape[0]` this truncation is `⌊4N/5⌋` (`0.8 * N` in exact
arithmetic, truncated toward zero).  `train_vectors = vectors[:n_train]`,
`val_vectors = vectors[n_train:]`.  A matrix is embedded as its list of
rows. -/

def nTrain (N : Nat) : Nat := 4 * N / 5

def trainVectors (rows : List α) : List α := rows.take (nTrain rows.length)

def valVectors (rows : List α) : List α := rows.drop (nTrain rows.length)

/-! ## The Title record and its store

`recommender/models.py` is not part of the provided sources; only its
users in `titles.py` are. -/

/-- Modelled from the spec: the `Title` persistence-layer record
(`recommender.models.Title`, not in the provided sources).  Spec §3: "a
'Title' record ... with fields: identifier, publisher, theme, name, full
text, and a reference to a stored per-title feature vector".  The full
text defaults to the empty string on creation (titles.py lines 103-110
create a Title without it and `GetTextJSONFiles` selects titles by
`complete_text=""`); the vector-file reference is empty (`none`) until a
vector is attached.  Vector files are embedded as their row of counts. -/
structure TitleRec where
  identifier : String
  publisher : String
  theme : String
  name : String
  complete_text : String
  vector_file : Option (List Nat)
deriving DecidableEq, Repr

/-- Modelled from the spec: the persistence layer is embedded as the list
of stored Title rows, in storage order. -/
abbrev TitleStore := List TitleRec

/-! ## MapTitleInformation (titles.py lines 77-110) -/

/-- A title dict returned by the external content service, with the keys
`_create_title_from_service` reads: `sync_key`, `publisher["name"]`,
`theme` (a possibly empty list of `{"name": ...}` entries, of which
element 0's name is used), `title_name`. -/
structure ServiceTitle where
  sync_key : String
  publisher_name : String
  theme_names : List String
  title_name : String
deriving DecidableEq, Repr

/-- `MapTitleInformation._create_title_from_service` (titles.py lines
96-110): if a Title with `identifier` equal to the dict's `sync_key`
already exists, do nothing; otherwise create and save a new Title with
the dict's fields (theme: name of the first theme entry, or `""`). -/
def createTitleFromService (store : TitleStore) (title : ServiceTitle) :
    TitleStore :=
  if store.any (fun t => t.identifier = title.sync_key) then store
  else
    let theme := match title.theme_names with
      | [] => ""
      | n :: _ => n
    store ++ [{ identifier := title.sync_key
                publisher := title.publisher_name
                theme := theme
                name := title.title_name
                complete_text := ""
                vector_file := none }]

/-! ## GetTextJSONFiles (titles.py lines 113-133)

Text extraction (`MapTitleTextJSONFiles.process_json_file`, from
`recommender.utils`, not in the provided sources) is a parameter
`merged_text_of : folder path → merged text`. -/

/-- `GetTextJSONFiles.post` (titles.py lines 114-133): select all titles
when `process_all`, otherwise only those with empty `complete_text`; for
each selected title set `complete_text` to the text extracted from the
folder `f"{file_path}/{title.identifier}"` and save it.  Embedded as the
induced transformation of the store (unselected rows are untouched). -/
def getTextJSONFilesPost (process_all : Bool) (file_path : String)
    (merged_text_of : String → String) (store : TitleStore) : TitleStore :=
  store.map (fun title =>
    if process_all || title.complete_text = "" then
      { title with
        complete_text := merged_text_of (file_path ++ "/" ++ title.identifier) }
    else title)

/-! ## PrepareTrainData: the vectorizer (titles.py lines 144-159)

Modelled from the spec: `CountVectorizer` is an external library
(scikit-learn, not in the provided sources); it is embedded following its
documented contract with the parameters of titles.py lines 144-152.  A
document is its list of tokens (`LTokenizer` output).  The vocabulary is
the set of distinct terms whose document frequency is at least
`min_df = 2` and at most `max_df * N = 0.95 * N` (the comparison
`df ≤ 0.95*N` over integers is `20*df ≤ 19*N`); when more than
`max_features = VOCAB_SIZE` terms survive, the `VOCAB_SIZE` most frequent
terms (by total count over the corpus) are kept.  `fit_transform` returns
one row per document, one column per vocabulary term, entry = count of
the term in the document. -/

/-- Number of documents of the corpus containing the term `t`. -/
def docFreq (docs : List (List String)) (t : String) : Nat :=
  (docs.filter (fun d => t ∈ d)).length

/-- Total number of occurrences of the term `t` in the corpus. -/
def termFreq (docs : List (List String)) (t : String) : Nat :=
  ((docs.flatMap id).filter (fun s => s = t)).length

/-- The distinct terms of the corpus surviving the `min_df = 2` /
`max_df = 0.95` document-frequency pruning. -/
def prunedVocab (docs : List (List String)) : List String :=
  (docs.flatMap id).dedup.filter
    (fun t => 2 ≤ docFreq docs t ∧ 20 * docFreq docs t ≤ 19 * docs.length)

/-- Insert `x` into a list already sorted by `f` descending. -/
def insertByFreqDesc (f : String → Nat) (x : String) :
    List String → List String
  | [] => [x]
  | y :: ys => if f y < f x then x :: y :: ys else y :: insertByFreqDesc f x ys

/-- Insertion sort by `f`, descending. -/
def sortByFreqDesc (f : String → Nat) : List String → List String
  | [] => []
  | x :: xs => insertByFreqDesc f x (sortByFreqDesc f xs)

/-- The fitted vocabulary: the pruned terms, capped at the
`max_features = VOCAB_SIZE` most frequent. -/
def vocabulary (docs : List (List String)) : List String :=
  (sortByFreqDesc (termFreq docs) (prunedVocab docs)).take VOCAB_SIZE

/-- `vectorizer.fit_transform(titles)` (titles.py line 158): the
bag-of-words count matrix, one row per document, one column per
vocabulary term. -/
def fitTransform (docs : List (List String)) : List (List Nat) :=
  let vocab := vocabulary docs
  docs.map (fun d => vocab.map (fun t => (d.filter (fun s => s = t)).length))

/-! ## PrepareTrainData: corpus, shuffle and vector assignment
(titles.py lines 153-177, 231-248) -/

/-- `PrepareTrainData._get_titles_text` (titles.py lines 264-274): the
`complete_text` of each title of the queryset whose text is nonempty, in
queryset order. -/
def getTitlesText (queryset : List TitleRec) : List String :=
  (queryset.filter (fun title => ¬ title.complete_text = "")).map
    (fun title => title.complete_text)

/-- The bag-of-words matrix of the queryset: `fit_transform` applied to
the extracted corpus, with the whole vectorizer abstracted as a
row-valued function `bow` of the document text (row `k` of the result is
the vector computed from document `k` of the corpus). -/
def corpusVectors (bow : String → List Nat) (queryset : List TitleRec) :
    List (List Nat) :=
  (getTitlesText queryset).map bow

/-- `vectors = vectors[new_index]` (titles.py line 171): fancy indexing
of the row list by the index list (defined when every index is in range,
which a permutation of `np.arange(N)` guarantees; out-of-range indices,
an `IndexError` in the source, are given the junk row `[]`). -/
def permuteRows (rows : List (List Nat)) (new_index : List Nat) :
    List (List Nat) :=
  new_index.map (fun i => rows.getD i [])

/-- `PrepareTrainData._map_vectors_titles` (titles.py lines 231-248):
walk the queryset with `item_counter` starting at 0, attaching row
`item_counter` of `vectors` to each title's `vector_file` (the rows of
the dense matrix are saved to per-title files; the embedding attaches the
row itself).  A counter beyond the last row is an `IndexError` in the
source, so the walk stops there. -/
def mapVectorsTitles (vectors : List (List Nat)) (queryset : List TitleRec) :
    List TitleRec :=
  List.zipWith (fun title v => { title with vector_file := some v })
    queryset vectors

/-! ## PrepareTrainData: response paths (titles.py lines 195-227) -/

/-- Whether a path component is absolute (begins with `'/'`). -/
def isAbsolute (b : String) : Bool := b.data.head? = some '/'

/-- Whether a path component already ends with the separator `'/'`. -/
def endsWithSep (a : String) : Bool := a.data.getLast? = some '/'

/-- `os.path.join` (POSIX, two components): an absolute second component
replaces the first; otherwise the parts are glued with exactly one
separator. -/
def osPathJoin (a b : String) : String :=
  if isAbsolute b then b
  else if a = "" || endsWithSep a then a ++ b
  else a ++ "/" ++ b

/-- The JSON body of `PrepareTrainData`'s success response (titles.py
lines 216-227), as a function of the configured `settings.BOOK_PATH`
(`book_path`; the Django settings module is not in the provided
sources). -/
structure PrepareTrainDataResponse where
  status : String
  s3_train_data : String
  s3_val_data : String
  output_path : String
  vectors_path : String
  vocab_list : String
  index : String
  new_index : String
deriving DecidableEq, Repr

/-- The response `PrepareTrainData.post` returns on success, built
exactly as in titles.py lines 195-227: prefixes joined with
`os.path.join`, S3 URLs joined from `'s3://'`, the bucket and the
prefixes, file locations formatted under `settings.BOOK_PATH`. -/
def prepareTrainDataResponse (book_path : String) : PrepareTrainDataResponse :=
  let bucket := SAGEMAKER_BUCKET
  let pfx := PREFIX
  let train_prefix := osPathJoin pfx "train"
  let val_prefix := osPathJoin pfx "val"
  let output_prefix := osPathJoin pfx "output"
  { status := "Ok"
    s3_train_data := osPathJoin (osPathJoin "s3://" bucket) train_prefix
    s3_val_data := osPathJoin (osPathJoin "s3://" bucket) val_prefix
    output_path := osPathJoin (osPathJoin "s3://" bucket) output_prefix
    vectors_path := book_path ++ "/vectors.joblib"
    vocab_list := book_path ++ "/vocab_list.csv"
    index := book_path ++ "/index.csv"
    new_index := book_path ++ "/new_index.csv" }

/-! ## CreateNTMEstimator (titles.py lines 299-353)

The handler's `try` block runs Session creation, Estimator construction,
hyperparameter setting, `s3_input`, `fit`, `deploy` and the endpoint
lookup in sequence; the local `ntm_predictor` is bound exactly when
`deploy` has returned.  The `except Exception` handler builds the error
body, sets status 400, then calls `ntm_predictor.delete_endpoint()` —
a `NameError` when `ntm_predictor` is unbound, which propagates out of
the handler in place of any HTTP response.  Where the exception (if any)
is raised is a parameter of the embedding. -/

inductive NTMFailure where
  /-- An exception raised at a step before `deploy` returns (Session,
  Estimator, `set_hyperparameters`, `s3_input`, `fit`, or `deploy`
  itself), carrying its message. -/
  | beforeDeploy (e : String) : NTMFailure
  /-- An exception raised after `deploy` returned (so after
  `ntm_predictor` is bound), carrying its message. -/
  | afterDeploy (e : String) : NTMFailure
deriving DecidableEq, Repr

/-- Outcome of `CreateNTMEstimator.post`: an HTTP response with a status
code, a `status` body field and an optional `error` body field, or an
exception escaping the handler. -/
inductive NTMOutcome where
  | response (statusCode : Nat) (statusField : String) (error : Option String) :
      NTMOutcome
  | uncaught (e : String) : NTMOutcome
deriving DecidableEq, Repr

/-- State at the moment the `try` block of titles.py lines 308-331 exits:
whether the local `ntm_predictor` was bound, and the in-flight exception,
if any. -/
def runNTMTryBlock : Option NTMFailure → Bool × Option String
  | none => (true, none)
  | some (.beforeDeploy e) => (false, some e)
  | some (.afterDeploy e) => (true, some e)

/-- The `except Exception as e` handler (titles.py lines 332-339): build
`{"status": "ERROR", "error": str(e.args[0])}`, set status 400, call
`ntm_predictor.delete_endpoint()` — a `NameError` when `ntm_predictor`
is unbound, which replaces the HTTP response — then return the 400
response. -/
def ntmExceptHandler (predictorBound : Bool) (e : String) : NTMOutcome :=
  if predictorBound then .response 400 "ERROR" (some e)
  else .uncaught "NameError: name ntm_predictor is not defined"

/-- `CreateNTMEstimator.post` (titles.py lines 300-353), as a function of
where (if anywhere) the `try` block raises: on no exception, the HTTP 200
`"Ok"` response; on an exception, the `except` handler's outcome. -/
def createNTMEstimatorPost (failure : Option NTMFailure) : NTMOutcome :=
  let r := runNTMTryBlock failure
  match r.2 with
  | none => .response 200 "Ok" none
  | some e => ntmExceptHandler r.1 e

/-! ## Helper lemmas -/

lemma chunkRows_of_lt (N p i : Nat) (h : i + 1 < p) :
    chunkRows N p i = List.range' (i * (N / p)) (N / p) := by
  have hne : i + 1 ≠ p := Nat.ne_of_lt h
  have hsub : (i + 1) * (N / p) - i * (N / p) = N / p := by
    have hmul : (i + 1) * (N / p) = i * (N / p) + N / p := by ring
    rw [hmul, Nat.add_sub_cancel_left]
  simp only [chunkRows, chunkBounds, hne, if_false, hsub]

lemma flatMap_chunkRows_prefix (N p : Nat) :
    ∀ k, k < p →
      (List.range k).flatMap (chunkRows N p) = List.range' 0 (k * (N / p)) := by
  intro k
  induction k with
  | zero => intro _; simp
  | succ k ih =>
    intro hk
    have hk' : k < p := Nat.lt_of_succ_lt hk
    have hrange : List.range (k + 1) = List.range k ++ [k] := List.range_succ k
    rw [hrange, List.flatMap_append, ih hk']
    simp only [List.flatMap_cons, List.flatMap_nil, List.append_nil]
    rw [chunkRows_of_lt N p k hk]
    have := List.range'_append_1 0 (k * (N / p)) (N / p)
    simp only [Nat.zero_add] at this
    rw [this]
    congr 1
    ring

lemma nTrain_le (N : Nat) : nTrain N ≤ N := by
  unfold nTrain
  omega

/-- C3: `_split_convert_upload` (titles.py lines 276-296) with an `N`-row
input and `n_parts ≥ 1` serializes exactly `n_parts` chunks; chunk `i`
covers rows `[i*(N/n_parts), (i+1)*(N/n_parts))` for `i < n_parts - 1`,
the last chunk covers rows `[(n_parts-1)*(N/n_parts), N)`, and the rows
of the chunks, concatenated in loop order, are exactly
`0, 1, ..., N - 1`: contiguous, non-overlapping, in row order, covering
every row exactly once. -/
theorem splitConvertUpload_partition (N p : Nat) (hp : 1 ≤ p) :
    (splitChunks N p).length = p ∧
    (∀ i, i + 1 < p → chunkBounds N p i = (i * (N / p), (i + 1) * (N / p))) ∧
    chunkBounds N p (p - 1) = ((p - 1) * (N / p), N) ∧
    allChunkRows N p = List.range N := by
  have hcs : (p - 1) * (N / p) ≤ N := by
    calc (p - 1) * (N / p) ≤ p * (N / p) :=
          Nat.mul_le_mul_right _ (Nat.sub_le p 1)
    _ = N / p * p := Nat.mul_comm ..
    _ ≤ N := Nat.div_mul_le_self N p
  refine ⟨by simp [splitChunks], ?_, ?_, ?_⟩
  · intro i hi
    have hne : i + 1 ≠ p := Nat.ne_of_lt hi
    simp [chunkBounds, hne]
  · have hlast : p - 1 + 1 = p := by omega
    simp [chunkBounds, hlast]
  · have hsplit : p = (p - 1) + 1 := by omega
    have hrange : List.range p = List.range (p - 1) ++ [p - 1] := by
      rw [hsplit]
      exact List.range_succ (p - 1)
    rw [allChunkRows, hrange, List.flatMap_append,
      flatMap_chunkRows_prefix N p (p - 1) (by omega)]
    simp only [List.flatMap_cons, List.flatMap_nil, List.append_nil]
    have hlastrows : chunkRows N p (p - 1) =
        List.range' ((p - 1) * (N / p)) (N - (p - 1) * (N / p)) := by
      have hlast : p - 1 + 1 = p := by omega
      simp [chunkRows, chunkBounds, hlast]
    rw [hlastrows]
    have := List.range'_append_1 0 ((p - 1) * (N / p)) (N - (p - 1) * (N / p))
    simp only [Nat.zero_add] at this
    rw [this, List.range_eq_range']
    congr 1
    omega

/-- C3 witness: the partition property evaluated at a 10-row input split
into 8 parts (the `n_parts=8` call of titles.py line 212). -/
theorem splitConvertUpload_partition_witness :
    (splitChunks 10 8).length = 8 ∧
    (∀ i, i + 1 < 8 → chunkBounds 10 8 i = (i * (10 / 8), (i + 1) * (10 / 8))) ∧
    chunkBounds 10 8 (8 - 1) = ((8 - 1) * (10 / 8), 10) ∧
    allChunkRows 10 8 = List.range 10 :=
  splitConvertUpload_partition 10 8 (by decide)

/-- C4: the train/validation split of titles.py lines 186-191 is the
function of the shuffled matrix that takes the first `⌊0.8*N⌋` rows as
the training set and the remaining rows as the validation set; the two
parts concatenate back to the whole matrix, so they partition its rows. -/
theorem trainValSplit_partition (rows : List α) :
    trainVectors rows = rows.take (4 * rows.length / 5) ∧
    valVectors rows = rows.drop (4 * rows.length / 5) ∧
    trainVectors rows ++ valVectors rows = rows ∧
    (trainVectors rows).length = 4 * rows.length / 5 ∧
    (valVectors rows).length = rows.length - 4 * rows.length / 5 := by
  refine ⟨rfl, rfl, List.take_append_drop .., ?_, ?_⟩
  · rw [trainVectors, List.length_take]
    have := nTrain_le rows.length
    unfold nTrain at *
    omega
  · rw [valVectors, List.length_drop]
    rfl

lemma downloadLoop_ok (download : κ → DownloadOutcome) :
    ∀ (keys acc : List κ), (∀ k ∈ keys, (download k).isOther = false) →
      downloadLoop download keys acc =
        .ok (acc ++ keys.filter (fun k => (download k).isValueError)) := by
  intro keys
  induction keys with
  | nil => intro acc _; simp [downloadLoop]
  | cons k ks ih =>
    intro acc h
    have hk : (download k).isOther = false := h k (by simp)
    have hks : ∀ x ∈ ks, (download x).isOther = false :=
      fun x hx => h x (List.mem_cons_of_mem k hx)
    cases hdk : download k with
    | success =>
      rw [downloadLoop, hdk, ih acc hks, List.filter_cons]
      simp [DownloadOutcome.isValueError, hdk]
    | valueError =>
      rw [downloadLoop, hdk, ih (acc ++ [k]) hks, List.filter_cons]
      simp [DownloadOutcome.isValueError, hdk]
    | otherError e =>
      rw [hdk] at hk
      simp [DownloadOutcome.isOther] at hk

lemma downloadLoop_propagates (download : κ → DownloadOutcome) :
    ∀ (keys acc : List κ), (∃ k ∈ keys, (download k).isOther = true) →
      ∃ e, downloadLoop download keys acc = .error e := by
  intro keys
  induction keys with
  | nil => intro acc h; simp at h
  | cons k ks ih =>
    intro acc h
    cases hdk : download k with
    | success =>
      have h' : ∃ x ∈ ks, (download x).isOther = true := by
        rcases h with ⟨x, hx, hox⟩
        rcases List.mem_cons.mp hx with rfl | hxs
        · rw [hdk] at hox; simp [DownloadOutcome.isOther] at hox
        · exact ⟨x, hxs, hox⟩
      rcases ih acc h' with ⟨e, he⟩
      exact ⟨e, by rw [downloadLoop, hdk]; exact he⟩
    | valueError =>
      have h' : ∃ x ∈ ks, (download x).isOther = true := by
        rcases h with ⟨x, hx, hox⟩
        rcases List.mem_cons.mp hx with rfl | hxs
        · rw [hdk] at hox; simp [DownloadOutcome.isOther] at hox
        · exact ⟨x, hxs, hox⟩
      rcases ih (acc ++ [k]) h' with ⟨e, he⟩
      exact ⟨e, by rw [downloadLoop, hdk]; exact he⟩
    | otherError e =>
      exact ⟨e, by rw [downloadLoop, hdk]⟩

/-- C9: `DownloadTitles.post` (titles.py lines 53-74) — whenever no key's
download raises an exception other than `ValueError`, the handler returns
HTTP 200 with status `"OK"` and an `errors` count equal to the number of
keys whose download raised `ValueError`; and whenever some key's download
raises a non-`ValueError` exception, the exception propagates out of the
handler and no response is produced. -/
theorem downloadTitles_post_spec (keys : List κ) (download : κ → DownloadOutcome) :
    ((∀ k ∈ keys, (download k).isOther = false) →
      downloadTitlesPost keys download =
        .ok { status := "OK"
              errors := (keys.filter (fun k => (download k).isValueError)).length
              statusCode := 200 }) ∧
    ((∃ k ∈ keys, (download k).isOther = true) →
      ∃ e, downloadTitlesPost keys download = .error e) := by
  constructor
  · intro h
    rw [downloadTitlesPost, downloadLoop_ok download keys [] h]
    simp [Except.map]
  · intro h
    rcases downloadLoop_propagates download keys [] h with ⟨e, he⟩
    exact ⟨e, by rw [downloadTitlesPost, he]; rfl⟩

/-- C9 witness: two keys, the first raising `ValueError`, the second
succeeding — the handler answers HTTP 200 / `"OK"` counting one error. -/
theorem downloadTitles_post_spec_witness :
    downloadTitlesPost [0, 1]
        (fun k => if k = 0 then DownloadOutcome.valueError else .success) =
      .ok { status := "OK", errors := 1, statusCode := 200 } := by
  have h := (downloadTitles_post_spec [0, 1]
    (fun k => if k = 0 then DownloadOutcome.valueError else .success)).1
    (by decide)
  simpa using h

/-- C1 counterexample: `DownloadTitles.post` at a request whose single
key's download raises `ValueError` — the error is caught, but the
response is HTTP 200 with status `"OK"` and an error count, not a generic
error message with HTTP 400, so not every endpoint surfaces caught errors
as HTTP 400. -/
theorem errorHandling_counterexample :
    downloadTitlesPost [0] (fun _ => DownloadOutcome.valueError) =
      .ok { status := "OK", errors := 1, statusCode := 200 } ∧
    (200 : Nat) ≠ 400 := by
  exact ⟨rfl, by decide⟩

/-- C1 amended: error handling is not uniform across endpoints.
`CreateNTMEstimator` catches any exception and, when the exception is
raised after the predictor is deployed, returns the generic error body
with HTTP 400; `DownloadTitles` catches only `ValueError` per key and
returns HTTP 200 with status `"OK"` and `errors` equal to the count of
`ValueError` keys; errors the handlers do not catch propagate with no
HTTP response (a non-`ValueError` download exception aborts
`DownloadTitles` with no response, and a pre-deploy exception makes the
`CreateNTMEstimator` handler itself raise, again with no response). -/
theorem errorHandling_amended :
    (∀ e, createNTMEstimatorPost (some (NTMFailure.afterDeploy e)) =
      NTMOutcome.response 400 "ERROR" (some e)) ∧
    (∀ (keys : List Nat) (download : Nat → DownloadOutcome),
      ((∀ k ∈ keys, (download k).isOther = false) →
        downloadTitlesPost keys download =
          .ok { status := "OK"
                errors := (keys.filter (fun k => (download k).isValueError)).length
                statusCode := 200 }) ∧
      ((∃ k ∈ keys, (download k).isOther = true) →
        ∃ e, downloadTitlesPost keys download = .error e)) ∧
    (∀ e, createNTMEstimatorPost (some (NTMFailure.beforeDeploy e)) ≠
      NTMOutcome.response 400 "ERROR" (some e) ∧
      ∃ msg, createNTMEstimatorPost (some (NTMFailure.beforeDeploy e)) =
        NTMOutcome.uncaught msg) := by
  refine ⟨fun e => rfl, fun keys download => ⟨?_, ?_⟩,
    fun e => ⟨fun h => NTMOutcome.noConfusion h, _, rfl⟩⟩
  · intro h
    rw [downloadTitlesPost, downloadLoop_ok download keys [] h]
    rfl
  · intro h
    rcases downloadLoop_propagates download keys [] h with ⟨e, he⟩
    exact ⟨e, by rw [downloadTitlesPost, he]; rfl⟩

/-- C1 amended witness: the `DownloadTitles` clauses evaluated at
concrete requests — a caught `ValueError` key yields 200/`"OK"` with
`errors = 1`, and a key with any other exception yields no response. -/
theorem errorHandling_amended_witness :
    downloadTitlesPost [0] (fun _ => DownloadOutcome.valueError) =
      .ok { status := "OK", errors := 1, statusCode := 200 } ∧
    ∃ e, downloadTitlesPost [1] (fun _ => DownloadOutcome.otherError "boom") =
      .error e := by
  constructor
  · have h := (errorHandling_amended.2.1 [0]
      (fun _ => DownloadOutcome.valueError)).1 (by decide)
    simpa using h
  · exact (errorHandling_amended.2.1 [1]
      (fun _ => DownloadOutcome.otherError "boom")).2 ⟨1, by decide, by decide⟩

/-- C6: in `CreateNTMEstimator.post` (titles.py lines 299-339), whenever
the `try` block raises before `deploy` returns, the local `ntm_predictor`
is unbound, so the `except` handler's cleanup call
`ntm_predictor.delete_endpoint()` itself raises `NameError` and the
handler produces no HTTP 400 response: the `NameError` propagates. -/
theorem createNTM_handler_nameError (e : String) :
    createNTMEstimatorPost (some (NTMFailure.beforeDeploy e)) =
      NTMOutcome.uncaught "NameError: name ntm_predictor is not defined" := rfl

/-- C7: `MapTitleInformation._create_title_from_service` (titles.py lines
96-110) never creates a duplicate Title — if a Title with `identifier`
equal to the service dict's `sync_key` already exists, the store is
returned unchanged; and uniqueness of `identifier` over the store is an
invariant preserved by the operation. -/
theorem mapTitleInformation_no_duplicate (store : TitleStore) (title : ServiceTitle) :
    ((store.any (fun t => t.identifier = title.sync_key)) = true →
      createTitleFromService store title = store) ∧
    ((store.map TitleRec.identifier).Nodup →
      ((createTitleFromService store title).map TitleRec.identifier).Nodup) := by
  constructor
  · intro h
    simp only [createTitleFromService, h, if_true]
  · intro hnodup
    by_cases h : (store.any (fun t => t.identifier = title.sync_key)) = true
    · simpa only [createTitleFromService, h, if_true] using hnodup
    · have hnotmem : title.sync_key ∉ store.map TitleRec.identifier := by
        intro hmem
        rcases List.mem_map.mp hmem with ⟨t, ht, hid⟩
        exact h (List.any_eq_true.mpr ⟨t, ht, by simp [hid]⟩)
      simp only [createTitleFromService, h, if_false, List.map_append]
      simp [List.nodup_append, hnodup, hnotmem]

/-- C7 witness: a one-row store already holding identifier `"id1"` and a
service dict with the same `sync_key` — the store is unchanged and
identifier uniqueness is preserved. -/
theorem mapTitleInformation_no_duplicate_witness :
    createTitleFromService
        [{ identifier := "id1", publisher := "p", theme := "t", name := "n",
           complete_text := "", vector_file := none }]
        { sync_key := "id1", publisher_name := "pub", theme_names := [],
          title_name := "nm" } =
      [{ identifier := "id1", publisher := "p", theme := "t", name := "n",
         complete_text := "", vector_file := none }] ∧
    ((createTitleFromService
        [{ identifier := "id1", publisher := "p", theme := "t", name := "n",
           complete_text := "", vector_file := none }]
        { sync_key := "id1", publisher_name := "pub", theme_names := [],
          title_name := "nm" }).map TitleRec.identifier).Nodup :=
  ⟨(mapTitleInformation_no_duplicate _ _).1 (by decide),
   (mapTitleInformation_no_duplicate _ _).2 (by decide)⟩

/-- C8: `GetTextJSONFiles.post` with `process_all` false (titles.py lines
114-133) maps each stored title to itself except that a title whose
`complete_text` is empty gets `complete_text` replaced by the text
extracted from its folder; its other fields, and every title whose
`complete_text` is already nonempty, are left exactly as they were, and
no title is added or removed. -/
theorem getTextJSONFiles_frame (file_path : String)
    (merged_text_of : String → String) (store : TitleStore) (k : Nat)
    (hk : k < store.length) :
    (getTextJSONFilesPost false file_path merged_text_of store).length =
      store.length ∧
    (getTextJSONFilesPost false file_path merged_text_of store)[k]? =
      some (if store[k].complete_text = ""
            then { store[k] with
                   complete_text :=
                     merged_text_of (file_path ++ "/" ++ store[k].identifier) }
            else store[k]) := by
  refine ⟨by simp [getTextJSONFilesPost], ?_⟩
  rw [getTextJSONFilesPost, List.getElem?_map, List.getElem?_eq_getElem hk]
  by_cases hc : store[k].complete_text = ""
  · simp [hc]
  · simp [hc]

/-- C8 witness: a two-row store, one title with empty text and one with
text already attached, processed with `process_all` false — only the
empty one's `complete_text` changes. -/
theorem getTextJSONFiles_frame_witness :
    (getTextJSONFilesPost false "bp" (fun s => s)
        [{ identifier := "idA", publisher := "p1", theme := "t1", name := "n1",
           complete_text := "", vector_file := none },
         { identifier := "idB", publisher := "p2", theme := "t2", name := "n2",
           complete_text := "done", vector_file := some [1] }]).length = 2 ∧
    (getTextJSONFilesPost false "bp" (fun s => s)
        [{ identifier := "idA", publisher := "p1", theme := "t1", name := "n1",
           complete_text := "", vector_file := none },
         { identifier := "idB", publisher := "p2", theme := "t2", name := "n2",
           complete_text := "done", vector_file := some [1] }])[0]? =
      some { identifier := "idA", publisher := "p1", theme := "t1", name := "n1",
             complete_text := "bp/idA", vector_file := none } := by
  have h := getTextJSONFiles_frame "bp" (fun s => s)
    [{ identifier := "idA", publisher := "p1", theme := "t1", name := "n1",
       complete_text := "", vector_file := none },
     { identifier := "idB", publisher := "p2", theme := "t2", name := "n2",
       complete_text := "done", vector_file := some [1] }] 0 (by decide)
  exact ⟨h.1, h.2.trans (by decide)⟩

/-- C10: the success response of `PrepareTrainData.post` (titles.py lines
195-227) echoes exactly the derived S3 locations
`s3://sagemaker-erecommender/recommender/{train,val,output}` and the four
file locations under the configured book path. -/
theorem prepareTrainData_response_paths (book_path : String) :
    prepareTrainDataResponse book_path =
      { status := "Ok"
        s3_train_data := "s3://sagemaker-erecommender/recommender/train"
        s3_val_data := "s3://sagemaker-erecommender/recommender/val"
        output_path := "s3://sagemaker-erecommender/recommender/output"
        vectors_path := book_path ++ "/vectors.joblib"
        vocab_list := book_path ++ "/vocab_list.csv"
        index := book_path ++ "/index.csv"
        new_index := book_path ++ "/new_index.csv" } := by
  simp only [prepareTrainDataResponse, PrepareTrainDataResponse.mk.injEq,
    true_and, and_true]
  exact ⟨by decide, by decide, by decide⟩

lemma getElem?_zipWith_of_lt (f : α → β → γ) (l1 : List α) (l2 : List β)
    (k : Nat) (h1 : k < l1.length) (h2 : k < l2.length) :
    (List.zipWith f l1 l2)[k]? = some (f l1[k] l2[k]) := by
  rw [List.getElem?_zipWith]
  simp [List.getElem?_eq_getElem, h1, h2]

/-- C5: in `PrepareTrainData.post`, after `vectors = vectors[new_index]`
(titles.py line 171), `_map_vectors_titles` (lines 231-248) attaches row
`k` of the permuted matrix to the title at position `k` of the queryset —
that row is the bag-of-words vector computed from the text of the title
at position `new_index[k]`, so a title is attached the vector computed
from its own text exactly at the positions with `new_index[k] = k`. -/
theorem prepareTrainData_vector_alignment
    (bow : String → List Nat) (queryset : List TitleRec) (new_index : List Nat)
    (hall : ∀ t ∈ queryset, ¬ t.complete_text = "")
    (hlen : new_index.length = queryset.length)
    (k j : Nat) (hk : k < queryset.length)
    (hj : new_index[k]? = some j) (hjq : j < queryset.length) :
    (mapVectorsTitles (permuteRows (corpusVectors bow queryset) new_index)
        queryset)[k]? =
      some { queryset[k] with
             vector_file := some (bow queryset[j].complete_text) } := by
  have hfil : queryset.filter (fun title => ¬ title.complete_text = "") = queryset :=
    List.filter_eq_self.mpr (fun a ha => by simpa using hall a ha)
  have hvecs : corpusVectors bow queryset =
      queryset.map (fun t => bow t.complete_text) := by
    simp only [corpusVectors, getTitlesText, hfil, List.map_map]
    rfl
  have hlvecs : (corpusVectors bow queryset).length = queryset.length := by
    rw [hvecs, List.length_map]
  have hplen : (permuteRows (corpusVectors bow queryset) new_index).length =
      queryset.length := by
    rw [permuteRows, List.length_map, hlen]
  have hkp : k < (permuteRows (corpusVectors bow queryset) new_index).length := by
    rw [hplen]; exact hk
  have hgj : (corpusVectors bow queryset)[j]? =
      some (bow queryset[j].complete_text) := by
    rw [hvecs, List.getElem?_map, List.getElem?_eq_getElem hjq]
    rfl
  have hperm : (permuteRows (corpusVectors bow queryset) new_index)[k]? =
      some (bow queryset[j].complete_text) := by
    rw [permuteRows, List.getElem?_map, hj]
    simp [List.getD, List.get?_eq_getElem?, hgj]
  have hpk : (permuteRows (corpusVectors bow queryset) new_index)[k] =
      bow queryset[j].complete_text := by
    have h2 := hperm
    rw [List.getElem?_eq_getElem hkp] at h2
    exact Option.some.inj h2
  rw [mapVectorsTitles, getElem?_zipWith_of_lt _ _ _ k hk hkp, hpk]

/-- C5 witness: a two-title queryset with the swap permutation
`new_index = [1, 0]` and the token-count stand-in `bow s = [s.length]` —
the title at position 0 is attached the vector of the title at
position 1. -/
theorem prepareTrainData_vector_alignment_witness :
    (mapVectorsTitles
        (permuteRows
          (corpusVectors (fun s => [s.length])
            [{ identifier := "A", publisher := "p", theme := "t", name := "a",
               complete_text := "ta", vector_file := none },
             { identifier := "B", publisher := "p", theme := "t", name := "b",
               complete_text := "tbb", vector_file := none }])
          [1, 0])
        [{ identifier := "A", publisher := "p", theme := "t", name := "a",
           complete_text := "ta", vector_file := none },
         { identifier := "B", publisher := "p", theme := "t", name := "b",
           complete_text := "tbb", vector_file := none }])[0]? =
      some { identifier := "A", publisher := "p", theme := "t", name := "a",
             complete_text := "ta", vector_file := some [3] } := by
  have h := prepareTrainData_vector_alignment (fun s => [s.length])
    [{ identifier := "A", publisher := "p", theme := "t", name := "a",
       complete_text := "ta", vector_file := none },
     { identifier := "B", publisher := "p", theme := "t", name := "b",
       complete_text := "tbb", vector_file := none }]
    [1, 0] (by decide) (by decide) 0 1 (by decide) (by decide) (by decide)
  exact h.trans (by decide)

lemma length_insertByFreqDesc (f : String → Nat) (x : String) (l : List String) :
    (insertByFreqDesc f x l).length = l.length + 1 := by
  induction l with
  | nil => rfl
  | cons y ys ih =>
    rw [insertByFreqDesc]
    split
    · rfl
    · simp [ih]

lemma length_sortByFreqDesc (f : String → Nat) (l : List String) :
    (sortByFreqDesc f l).length = l.length := by
  induction l with
  | nil => rfl
  | cons x xs ih =>
    rw [sortByFreqDesc, length_insertByFreqDesc, ih]
    rfl

lemma length_vocabulary (docs : List (List String)) :
    (vocabulary docs).length = min VOCAB_SIZE (prunedVocab docs).length := by
  rw [vocabulary, List.length_take, length_sortByFreqDesc]

/-- C2 counterexample: the non-empty corpus `["a"], ["a"], ["b"]` (three
documents) — after the `min_df = 2` / `max_df = 0.95` pruning only the
term `"a"` remains, so the vectorizer output has 3 rows of 1 column each,
not `VOCAB_SIZE = 2000` columns. -/
theorem vectorizer_shape_counterexample :
    (fitTransform [["a"], ["a"], ["b"]]).map List.length = [1, 1, 1] ∧
    (1 : Nat) ≠ VOCAB_SIZE := by
  exact ⟨by decide, by decide⟩

/-- C2 amended: for `N` input documents the vectorizer output has exactly
`N` rows, and every row has `min(VOCAB_SIZE, V)` columns, where `V` is
the number of distinct terms surviving the document-frequency pruning —
at most `VOCAB_SIZE = 2000` columns, and exactly 2000 only when at least
2000 terms survive. -/
theorem vectorizer_shape_amended (docs : List (List String)) :
    (fitTransform docs).length = docs.length ∧
    (fitTransform docs).map List.length =
      List.replicate docs.length (min VOCAB_SIZE (prunedVocab docs).length) := by
  constructor
  · simp [fitTransform]
  · have h1 : fitTransform docs =
        docs.map (fun (d : List String) => (vocabulary docs).map
          (fun t => (d.filter (fun s => s = t)).length)) := rfl
    rw [h1, List.map_map]
    have h2 : (List.length ∘ fun (d : List String) =>
        (vocabulary docs).map (fun t => (d.filter (fun s => s = t)).length)) =
        fun _ => (vocabulary docs).length := by
      funext d
      simp
    rw [h2, List.map_const', length_vocabulary]

end ERecommender
